import Mathlib

/-
Verification of the plugin discovery and registration module
src/pydm/data_plugins/__init__.py (functions add_plugin and
load_plugins_from_path, plus the module top level).

The embedding is shallow: Python values that matter to the module are
modelled by explicit Lean data, the two functions are translated line by
line into state-passing Lean functions, and log output is modelled as a
list of structured events.
-/

set_option autoImplicit false
set_option linter.unusedVariables false

deriving instance DecidableEq for Except

namespace PydmDataPlugins

/-- Python str.endswith(t) on s: the character list of t is a suffix of
the character list of s.  (Implemented structurally so that concrete
instances reduce inside the kernel.) -/
def pyEndsWith (s t : String) : Bool := t.data.isSuffixOf s.data

/-- Python str.startswith(t) on s: the character list of t is a prefix
of the character list of s. -/
def pyStartsWith (s t : String) : Bool := t.data.isPrefixOf s.data

/-- Helper for pySplit: split a character list at every occurrence of
the separator character. -/
def splitChars (sep : Char) : List Char → List (List Char)
  | [] => [[]]
  | c :: cs =>
    let rest := splitChars sep cs
    if c = sep then [] :: rest
    else
      match rest with
      | [] => [[c]]
      | r :: rs => (c :: r) :: rs

/-- Python str.split(sep) with a one-character separator, as used with
os.pathsep on line 111 of the source: splitting the empty string gives
one empty field, and n separators give n + 1 fields. -/
def pySplit (sep : Char) (s : String) : List String :=
  (splitChars sep s.data).map (fun l => String.mk l)

/-- A discovered plugin class, that is, a strict subclass of PyDMPlugin
found inside a loaded module.  The field id models Python object
identity (classes compare by identity under == unless a metaclass
overrides it), name models the class attribute __name__, and protocol
models the class attribute protocol, which may be None. -/
structure Plugin where
  id : Nat
  name : String
  protocol : Option String
deriving DecidableEq, Repr

/-- One attribute of a loaded module, as seen by inspect.getmembers and
the filter on line 73 to 76 of the source: a qualifying class (a class
that is a strict subclass of PyDMPlugin), the base class PyDMPlugin
itself (for example re-imported into the module), or any other object
(functions, constants, non-plugin classes, ...). -/
inductive Member where
  | pluginClass (p : Plugin)
  | basePlugin
  | other
deriving DecidableEq, Repr

/-- A successfully loaded Python module: its attribute dictionary, as
pairs of attribute name and member. -/
structure PyModule where
  members : List (String × Member)
deriving DecidableEq, Repr

/-- Outcome of imp.load_source on one file: a module, or an exception
raised during loading (syntax error, import error, exception at top
level of the file). -/
inductive LoadResult where
  | ok (mod : PyModule)
  | err
deriving DecidableEq, Repr

/-- A file, as the scan sees it: its base name and what loading it with
imp.load_source would produce. -/
structure PyFile where
  name : String
  result : LoadResult
deriving DecidableEq, Repr

/-- A directory tree: base name of the directory, the files directly
inside it, and its subdirectories.  Each search location is given to the
scan as such a tree; the name field of the root is the last path
component of the location string. -/
inductive DirTree where
  | mk (name : String) (files : List PyFile) (subs : List DirTree)

mutual
/-- Models os.walk with the default top-down order: the root directory
is yielded first (as the pair of its base name, standing for
root.split(os.path.sep)[-1], and its file list), then every
subdirectory is walked recursively, in order.  Note that os.walk always
descends into every subdirectory here, because the source never prunes
the dirs list of the triple it unpacks on line 55. -/
def DirTree.walk : DirTree → List (String × List PyFile)
  | .mk n fs subs => (n, fs) :: walkForest subs

/-- Walk of a list of directories, one after the other. -/
def walkForest : List DirTree → List (String × List PyFile)
  | [] => []
  | t :: ts => t.walk ++ walkForest ts
end

/-- Structured model of the log records the module emits.  Info records
have constructors starting with info, logger.exception is
excImportFail, and the three logger.warning calls are the three warn
constructors. -/
inductive LogEvent where
  | infoLooking (root : String)
  | infoTrying (file : String)
  | excImportFail (file : String)
  | warnMultipleClasses (file : String) (chosen : String)
  | warnAttemptRegister (protocol : String)
  | warnReplacing (newPlugin oldPlugin : Plugin) (protocol : Option String)
deriving DecidableEq, Repr

/-- Whether a log event is at warning level. -/
def LogEvent.isWarning : LogEvent → Bool
  | .warnMultipleClasses _ _ => true
  | .warnAttemptRegister _ => true
  | .warnReplacing _ _ _ => true
  | _ => false

/-- Python dict read with default None: first matching key wins (a dict
never holds a key twice, so the first match is the only one). -/
def dget {κ α : Type} [DecidableEq κ] : List (κ × α) → κ → Option α
  | [], _ => none
  | (k, v) :: rest, q => if k = q then some v else dget rest q

/-- Python dict assignment m[k] = v: replace the value in place if the
key is present, otherwise append the new pair (dicts preserve insertion
order). -/
def dset {κ α : Type} [DecidableEq κ] : List (κ × α) → κ → α → List (κ × α)
  | [], k, v => [(k, v)]
  | (k0, v0) :: rest, k, v =>
      if k0 = k then (k, v) :: rest else (k0, v0) :: dset rest k v

/-- The global dictionary plugin_modules: maps a protocol (the key is
whatever plugin.protocol is, so possibly None) to the plugin registered
for it. -/
abbrev Registry := List (Option String × Plugin)

/-- Lines 18 to 31 of the source, add_plugin: if the key
plugin.protocol is already present in plugin_modules, log the Replacing
warning (whose arguments are, in source order, the new plugin, the old
plugin and the protocol), then assign plugin_modules[plugin.protocol] =
plugin unconditionally.  Returns the updated dictionary and the log
records emitted by this call. -/
def add_plugin (plugin : Plugin) (plugin_modules : Registry) :
    Registry × List LogEvent :=
  let logs :=
    match dget plugin_modules plugin.protocol with
    | some old => [LogEvent.warnReplacing plugin old plugin.protocol]
    | none => []
  (dset plugin_modules plugin.protocol plugin, logs)

/-- Lexicographic strict order on character lists, by code point, as
Python compares strings. -/
def lexLt : List Char → List Char → Bool
  | [], [] => false
  | [], _ :: _ => true
  | _ :: _, [] => false
  | a :: as, b :: bs => if a < b then true else if b < a then false else lexLt as bs

/-- Python string comparison a < b, by code points. -/
def pyStrLt (a b : String) : Bool := lexLt a.data b.data

/-- Insertion into a list of members sorted by attribute name. -/
def insertByName (x : String × Member) :
    List (String × Member) → List (String × Member)
  | [] => [x]
  | y :: ys => if pyStrLt y.1 x.1 then y :: insertByName x ys else x :: y :: ys

/-- Models inspect.getmembers(module): all attributes of the module,
sorted by attribute name. -/
def getmembers (module : PyModule) : List (String × Member) :=
  module.members.foldr insertByName []

/-- The list comprehension on lines 73 to 76: the members of the module
that are classes, are subclasses of PyDMPlugin and are not PyDMPlugin
itself, in getmembers (attribute-name-sorted) order.  The same class
object can occur several times, under different attribute names. -/
def classesOf (module : PyModule) : List Plugin :=
  (getmembers module).filterMap (fun m =>
    match m.2 with
    | .pluginClass p => some p
    | _ => none)

/-- Line 78 of the source is classes = list(set(classes)).  A CPython
set iterates in an unspecified, hash-dependent order, so the embedding
takes the ordering the runtime happens to produce as a parameter
setOrd of the scan.  This predicate says that the parameter is a
possible behaviour of list(set(...)) on input l: it returns the
distinct elements of l, in some order. -/
def SetOrdValidAt (setOrd : List Plugin → List Plugin)
    (l : List Plugin) : Prop :=
  (setOrd l).Perm l.dedup

/-- The set ordering parameter is a possible behaviour of
list(set(...)) on every input. -/
def SetOrdValid (setOrd : List Plugin → List Plugin) : Prop :=
  ∀ l, SetOrdValidAt setOrd l

/-- One possible behaviour of list(set(...)): keep the deduplicated
elements in dedup order. -/
def setOrdD : List Plugin → List Plugin := fun l => l.dedup

/-- Another possible behaviour of list(set(...)): the deduplicated
elements in reversed order. -/
def setOrdRev : List Plugin → List Plugin := fun l => l.dedup.reverse

/-- Line 106 of the source. -/
def DATA_PLUGIN_TOKEN : String := "_plugin.py"

/-- The error that escapes load_plugins_from_path when line 73 reads
the local variable module before any assignment to it has run: Python
raises UnboundLocalError at inspect.getmembers(module). -/
inductive ScanErr where
  | unboundLocalModule
deriving DecidableEq, Repr

/-- The mutable state load_plugins_from_path works on: the global
plugin_modules dictionary, the local added_plugins dictionary, the
local variable module (none while still unassigned), the global
sys.path (only the entries this call appended), the log records emitted
so far, and a trace of the add_plugin calls this run performed (each as
the pair of the registered protocol and plugin). -/
structure ScanState where
  registry : Registry
  added : List (String × Plugin)
  module : Option PyModule
  sysPath : List String
  logs : List LogEvent
  registrations : List (String × Plugin)
deriving DecidableEq, Repr

/-- Lines 73 to 97 of the source: inspect the members of the module the
local variable module currently holds, choose classes[0] of
list(set(classes)), and register it if its protocol is not None.  The
conditional swap relative to the source: the source warns when
plugin_modules.get(plugin.protocol) != plugin, so the else branch here
carries the warning. -/
def inspectAndRegister (setOrd : List Plugin → List Plugin)
    (fileName : String) (module : PyModule) (st : ScanState) : ScanState :=
  let classes := setOrd (classesOf module)
  match classes with
  | [] => st
  | plugin :: rest =>
    let st1 :=
      if rest.length > 0 then
        { st with logs :=
            st.logs ++ [LogEvent.warnMultipleClasses fileName plugin.name] }
      else st
    match plugin.protocol with
    | none => st1
    | some p =>
      let st2 :=
        if dget st1.registry (some p) = some plugin then st1
        else
          { st1 with logs := st1.logs ++ [LogEvent.warnAttemptRegister p] }
      let res := add_plugin plugin st2.registry
      { st2 with
          registry := res.1
          logs := st2.logs ++ res.2
          added := dset st2.added p plugin
          registrations := st2.registrations ++ [(p, plugin)] }

/-- Lines 62 to 72 of the source, the try block for one candidate
file: log Trying, append root to sys.path, and attempt the load.  On
success the local variable module is rebound to the fresh module; on
failure the exception is logged and module keeps whatever value it had
before this file. -/
def afterTry (root : String) (f : PyFile) (st : ScanState) : ScanState :=
  let st1 := { st with
      logs := st.logs ++ [LogEvent.infoTrying f.name]
      sysPath := st.sysPath ++ [root] }
  match f.result with
  | .ok mod => { st1 with module := some mod }
  | .err => { st1 with logs := st1.logs ++ [LogEvent.excImportFail f.name] }

/-- Lines 61 to 97 of the source: handle one entry name of files.  If
the name ends with DATA_PLUGIN_TOKEN (the module-level constant; the
token parameter of the function is not consulted on line 61), run the
try block, then fall through to the member inspection on line 73, which
reads the local variable module: if no load has succeeded so far in
this call, module is still unassigned and Python raises
UnboundLocalError there. -/
def processFile (setOrd : List Plugin → List Plugin) (root : String)
    (f : PyFile) (st : ScanState) : Except ScanErr ScanState :=
  if pyEndsWith f.name DATA_PLUGIN_TOKEN then
    match (afterTry root f st).module with
    | none => Except.error ScanErr.unboundLocalModule
    | some mod =>
        Except.ok (inspectAndRegister setOrd f.name mod (afterTry root f st))
  else
    Except.ok st

/-- Fold over a list whose step can fail, short-circuiting on the first
error; this is the loop shape of the two nested for loops of the
source once the possible UnboundLocalError is made explicit. -/
def foldE {α σ ε : Type} (f : σ → α → Except ε σ) :
    σ → List α → Except ε σ
  | s, [] => .ok s
  | s, a :: l =>
    match f s a with
    | .ok s1 => foldE f s1 l
    | .error e => .error e

/-- Lines 55 to 97 of the source: handle one (root, dirs, files) triple
yielded by os.walk.  If the last path component of root starts with two
underscores the triple is skipped by continue before anything is logged
or loaded; the walk itself still descends into the subdirectories of
such a directory, because dirs is never pruned. -/
def processRoot (setOrd : List Plugin → List Plugin)
    (entry : String × List PyFile) (st : ScanState) :
    Except ScanErr ScanState :=
  if pyStartsWith entry.1 "__" then .ok st
  else
    let st1 := { st with logs := st.logs ++ [LogEvent.infoLooking entry.1] }
    foldE (fun s f => processFile setOrd entry.1 f s) st1 entry.2

/-- The state load_plugins_from_path starts from: the current global
plugin_modules dictionary, empty added_plugins, the local variable
module unassigned, and nothing logged or appended yet by this call. -/
def initState (plugin_modules : Registry) : ScanState :=
  { registry := plugin_modules
    added := []
    module := none
    sysPath := []
    logs := []
    registrations := [] }

/-- Lines 34 to 98 of the source, load_plugins_from_path: walk every
location in order, handling every yielded directory with processRoot.
The token parameter is accepted but, exactly as in the source (line 61
tests against the module-level DATA_PLUGIN_TOKEN), never consulted.
The Python return value is the added field of the final state; the
other fields are the side effects of the call. -/
def load_plugins_from_path (setOrd : List Plugin → List Plugin)
    (plugin_modules : Registry) (locations : List DirTree)
    (token : String) : Except ScanErr ScanState :=
  foldE
    (fun s loc => foldE (fun s e => processRoot setOrd e s) s loc.walk)
    (initState plugin_modules) locations

/-- Lines 106 to 115 of the source, the module top level: env is
os.getenv applied to the environment variable (none when absent),
pathsep is os.pathsep (a single character, ":" or ";"), plugin_dir is
the directory holding the module.  The environment string is split on
pathsep, and plugin_dir is inserted at position 0 of the resulting
list. -/
def startupLocations (env : Option String) (pathsep : Char)
    (plugin_dir : String) : List String :=
  let locations :=
    match env with
    | none => []
    | some path => pySplit pathsep path
  plugin_dir :: locations

/-- The plugin registered last for protocol p in a trace of
registrations performed by one scan, if any. -/
def lastReg (tr : List (String × Plugin)) (p : String) : Option Plugin :=
  tr.foldl (fun acc e => if e.1 = p then some e.2 else acc) none

/-- Fixture: a plugin class named APlugin for protocol x. -/
def pluginA : Plugin := ⟨1, "APlugin", some "x"⟩

/-- Fixture: a distinct plugin class named BPlugin, also for protocol
x. -/
def pluginB : Plugin := ⟨2, "BPlugin", some "x"⟩

/-- Fixture: a module defining exactly the class pluginA. -/
def modA : PyModule := ⟨[("APlugin", Member.pluginClass pluginA)]⟩

/-- Fixture: a module defining exactly the class pluginB. -/
def modB : PyModule := ⟨[("BPlugin", Member.pluginClass pluginB)]⟩

/-- Fixture: a well-formed candidate file whose load succeeds. -/
def fileGood : PyFile := ⟨"good_plugin.py", LoadResult.ok modA⟩

/-- Fixture: a malformed candidate file whose load raises. -/
def fileBroken : PyFile := ⟨"broken_plugin.py", LoadResult.err⟩

/-- Fixture for C2: a search location whose double-underscore
subdirectory contains, one level further down, a file matching the
naming convention. -/
def dunderTree : DirTree :=
  DirTree.mk "plugins" []
    [DirTree.mk "__internal" []
      [DirTree.mk "sub" [⟨"x_plugin.py", LoadResult.ok modA⟩] []]]

/-- Fixture for C3: a plugin class named APlugin for protocol a. -/
def alphaPlugin : Plugin := ⟨11, "APlugin", some "a"⟩

/-- Fixture for C3: a plugin class named BPlugin for protocol b. -/
def betaPlugin : Plugin := ⟨12, "BPlugin", some "b"⟩

/-- Fixture for C3: a module defining the two qualifying classes
APlugin and BPlugin. -/
def twoClassMod : PyModule :=
  ⟨[("APlugin", Member.pluginClass alphaPlugin),
    ("BPlugin", Member.pluginClass betaPlugin)]⟩

/-- Fixture for C3: a location holding one file that defines both
classes. -/
def twoClassTree : DirTree :=
  DirTree.mk "plugins" [⟨"two_plugin.py", LoadResult.ok twoClassMod⟩] []

/-- Fixture for C6: a plugin class whose protocol attribute is None. -/
def nullPlugin : Plugin := ⟨21, "NullPlugin", none⟩

/-- Fixture for C6: a module defining only the null-protocol class. -/
def nullMod : PyModule := ⟨[("NullPlugin", Member.pluginClass nullPlugin)]⟩

/-- Fixture for C6: a file defining only the null-protocol class. -/
def nullFile : PyFile := ⟨"null_plugin.py", LoadResult.ok nullMod⟩

/-- Fixture for C6: a location holding only the null-protocol file. -/
def nullTree : DirTree := DirTree.mk "plugins" [nullFile] []

/-- A property of the scan state that only looks at the registry, the
added dictionary and the registration trace. -/
def StableP (P : ScanState → Prop) : Prop :=
  ∀ st st1 : ScanState, st1.registry = st.registry → st1.added = st.added →
    st1.registrations = st.registrations → P st → P st1

/-- A property of the scan state that survives one registration of a
plugin with a non-null protocol. -/
def RegStep (P : ScanState → Prop) : Prop :=
  ∀ (st : ScanState) (p : String) (pl : Plugin),
    pl.protocol = some p → P st →
    P { st with
          registry := dset st.registry (some p) pl
          added := dset st.added p pl
          registrations := st.registrations ++ [(p, pl)] }

/-- Reading a dictionary after an assignment: the assigned key now maps
to the new value, every other key is unaffected. -/
theorem dget_dset {κ α : Type} [DecidableEq κ]
    (m : List (κ × α)) (k q : κ) (v : α) :
    dget (dset m k v) q = if k = q then some v else dget m q := by
  induction m with
  | nil =>
    by_cases hq : k = q <;> simp [dget, dset, hq]
  | cons hd t ih =>
    obtain ⟨k0, v0⟩ := hd
    by_cases hk : k0 = k
    · subst hk
      by_cases hq : k0 = q <;> simp [dget, dset, hq]
    · by_cases hq : k0 = q
      · subst hq
        have : ¬ k = k0 := fun h => hk h.symm
        simp [dget, dset, hk, this]
      · simp [dget, dset, hk, hq, ih]

/-- Assigning to a key the value it already holds leaves the
dictionary unchanged. -/
theorem dset_self {κ α : Type} [DecidableEq κ]
    (m : List (κ × α)) (k : κ) (v : α)
    (h : dget m k = some v) : dset m k v = m := by
  induction m with
  | nil => simp [dget] at h
  | cons hd t ih =>
    obtain ⟨k0, v0⟩ := hd
    by_cases hk : k0 = k
    · subst hk
      simp [dget] at h
      simp [dset, h]
    · simp [dget, hk] at h
      simp [dset, hk, ih h]

/-- A property preserved by every successful step of a foldE is
carried from the initial to the final state. -/
theorem foldE_preserve {α σ ε : Type} {P : σ → Prop}
    {f : σ → α → Except ε σ}
    (hf : ∀ s a s1, f s a = .ok s1 → P s → P s1) :
    ∀ (l : List α) (s s1 : σ), foldE f s l = .ok s1 → P s → P s1 := by
  intro l
  induction l with
  | nil =>
    intro s s1 h hp
    simp only [foldE, Except.ok.injEq] at h
    exact h ▸ hp
  | cons a l ih =>
    intro s s1 h hp
    cases hfa : f s a with
    | ok s2 =>
      simp only [foldE, hfa] at h
      exact ih s2 s1 h (hf s a s2 hfa hp)
    | error e =>
      simp only [foldE, hfa] at h
      exact Except.noConfusion h

/-- The state after the try block, when the load succeeds: Trying
logged, root appended to sys.path, module rebound to the fresh
module. -/
theorem afterTry_eq_ok (root : String) (f : PyFile) (st : ScanState)
    (mod : PyModule) (hres : f.result = LoadResult.ok mod) :
    afterTry root f st =
      { st with
          logs := st.logs ++ [LogEvent.infoTrying f.name]
          sysPath := st.sysPath ++ [root]
          module := some mod } := by
  simp [afterTry, hres]

/-- The state after the try block, when the load raises: Trying and
the exception logged, root appended to sys.path, module untouched. -/
theorem afterTry_eq_err (root : String) (f : PyFile) (st : ScanState)
    (hres : f.result = LoadResult.err) :
    afterTry root f st =
      { st with
          logs := st.logs ++
            [LogEvent.infoTrying f.name, LogEvent.excImportFail f.name]
          sysPath := st.sysPath ++ [root] } := by
  simp [afterTry, hres]

/-- How the inspection step can change the interesting state: either
it registers nothing and leaves registry, added dictionary and
registration trace alone, or it registers the head of the ordered
class list, whose protocol is then known to be non-null. -/
theorem inspectAndRegister_cases (setOrd : List Plugin → List Plugin)
    (fn : String) (mod : PyModule) (st : ScanState) :
    ((inspectAndRegister setOrd fn mod st).registry = st.registry ∧
     (inspectAndRegister setOrd fn mod st).added = st.added ∧
     (inspectAndRegister setOrd fn mod st).registrations =
       st.registrations ∧
     (inspectAndRegister setOrd fn mod st).module = st.module)
    ∨ ∃ pl p,
        (setOrd (classesOf mod)).head? = some pl ∧
        pl.protocol = some p ∧
        (inspectAndRegister setOrd fn mod st).registry =
          dset st.registry (some p) pl ∧
        (inspectAndRegister setOrd fn mod st).added = dset st.added p pl ∧
        (inspectAndRegister setOrd fn mod st).registrations =
          st.registrations ++ [(p, pl)] ∧
        (inspectAndRegister setOrd fn mod st).module = st.module := by
  cases hcls : setOrd (classesOf mod) with
  | nil =>
    left
    simp [inspectAndRegister, hcls]
  | cons pl rest =>
    cases hp : pl.protocol with
    | none =>
      left
      by_cases hlen : rest.length > 0 <;>
        simp [inspectAndRegister, hcls, hp, hlen]
    | some p =>
      right
      refine ⟨pl, p, by simp [hcls], hp, ?_⟩
      by_cases hlen : rest.length > 0 <;>
        by_cases hcond : dget st.registry (some p) = some pl <;>
          simp [inspectAndRegister, hcls, hp, hlen, hcond, add_plugin]

/-- How one file step can change the interesting state: a skipped or
registration-free file leaves registry, added dictionary and
registration trace alone; otherwise exactly one plugin, the head of
the ordered class list of the inspected module, is registered, and
when the load of this very file succeeded the inspected module is the
freshly loaded one. -/
theorem processFile_cases (setOrd : List Plugin → List Plugin)
    (root : String) (f : PyFile) (st st1 : ScanState)
    (h : processFile setOrd root f st = .ok st1) :
    (st1.registry = st.registry ∧ st1.added = st.added ∧
      st1.registrations = st.registrations)
    ∨ ∃ mod pl p, st1.module = some mod ∧
        (∀ m, f.result = LoadResult.ok m → mod = m) ∧
        (setOrd (classesOf mod)).head? = some pl ∧
        pl.protocol = some p ∧
        st1.registry = dset st.registry (some p) pl ∧
        st1.added = dset st.added p pl ∧
        st1.registrations = st.registrations ++ [(p, pl)] := by
  by_cases hend : pyEndsWith f.name DATA_PLUGIN_TOKEN = true
  · cases hmod : (afterTry root f st).module with
    | none => simp [processFile, hend, hmod] at h
    | some mod =>
      have hst1 :
          st1 = inspectAndRegister setOrd f.name mod (afterTry root f st) := by
        simp [processFile, hend, hmod] at h
        exact h.symm
      have hA : (afterTry root f st).registry = st.registry ∧
          (afterTry root f st).added = st.added ∧
          (afterTry root f st).registrations = st.registrations := by
        cases hres : f.result <;> simp [afterTry, hres]
      rcases inspectAndRegister_cases setOrd f.name mod (afterTry root f st)
        with ⟨h1, h2, h3, _⟩ | ⟨pl, p, hh, hp, h1, h2, h3, h4⟩
      · left
        rw [hst1]
        exact ⟨h1.trans hA.1, h2.trans hA.2.1, h3.trans hA.2.2⟩
      · right
        refine ⟨mod, pl, p, ?_, ?_, hh, hp, ?_, ?_, ?_⟩
        · rw [hst1, h4, hmod]
        · intro m hm
          have hA2 := afterTry_eq_ok root f st m hm
          rw [hA2] at hmod
          simp at hmod
          exact hmod.symm
        · rw [hst1, h1, hA.1]
        · rw [hst1, h2, hA.2.1]
        · rw [hst1, h3, hA.2.2]
  · left
    simp [processFile, hend] at h
    rw [← h]
    exact ⟨rfl, rfl, rfl⟩

/-- A stable, registration-closed property is preserved by one file
step. -/
theorem processFile_pres {P : ScanState → Prop}
    (hP : StableP P) (hreg : RegStep P)
    (setOrd : List Plugin → List Plugin) (root : String) (f : PyFile)
    (st st1 : ScanState)
    (h : processFile setOrd root f st = .ok st1) (hp : P st) : P st1 := by
  rcases processFile_cases setOrd root f st st1 h with
    ⟨h1, h2, h3⟩ | ⟨mod, pl, p, _, _, _, hpp, h1, h2, h3⟩
  · exact hP st st1 h1 h2 h3 hp
  · exact hP _ st1 h1 h2 h3 (hreg st p pl hpp hp)

/-- A stable, registration-closed property is preserved by one
directory step. -/
theorem processRoot_pres {P : ScanState → Prop}
    (hP : StableP P) (hreg : RegStep P)
    (setOrd : List Plugin → List Plugin) (entry : String × List PyFile)
    (st st1 : ScanState)
    (h : processRoot setOrd entry st = .ok st1) (hp : P st) : P st1 := by
  by_cases hd : pyStartsWith entry.1 "__" = true
  · simp [processRoot, hd] at h
    exact hP st st1 (by rw [← h]) (by rw [← h]) (by rw [← h]) hp
  · simp only [processRoot, hd, Bool.false_eq_true, if_false] at h
    exact foldE_preserve
      (fun s a s1 hstep hPs =>
        processFile_pres hP hreg setOrd entry.1 a s s1 hstep hPs)
      entry.2 _ st1 h (hP st _ rfl rfl rfl hp)

/-- A stable, registration-closed property that holds of the initial
state holds of the final state of every successful scan. -/
theorem scan_pres {P : ScanState → Prop}
    (hP : StableP P) (hreg : RegStep P)
    (setOrd : List Plugin → List Plugin) (m0 : Registry)
    (locations : List DirTree) (token : String) (st : ScanState)
    (h : load_plugins_from_path setOrd m0 locations token = .ok st)
    (hinit : P (initState m0)) : P st := by
  unfold load_plugins_from_path at h
  exact foldE_preserve
    (fun s loc s1 hstep hPs =>
      foldE_preserve
        (fun s2 e s3 hstep2 hP2 =>
          processRoot_pres hP hreg setOrd e s2 s3 hstep2 hP2)
        loc.walk s s1 hstep hPs)
    locations _ st h hinit

/-- The dedup ordering is a possible behaviour of list(set(...)). -/
theorem setOrdD_valid : SetOrdValid setOrdD :=
  fun _ => List.Perm.refl _

/-- Every valid set ordering is the identity on a singleton class
list: list(set([c])) can only be [c]. -/
theorem setOrd_singleton {setOrd : List Plugin → List Plugin}
    (hso : SetOrdValid setOrd) (pl : Plugin) : setOrd [pl] = [pl] := by
  have h := hso [pl]
  unfold SetOrdValidAt at h
  have hd : ([pl] : List Plugin).dedup = [pl] := by
    rw [List.dedup_cons_of_not_mem (by simp), List.dedup_nil]
  rw [hd] at h
  exact List.perm_singleton.mp h

/-- Whatever order list(set(classes)) produces, its elements come from
classes. -/
theorem setOrd_mem {setOrd : List Plugin → List Plugin}
    (hso : SetOrdValid setOrd) {l : List Plugin} {x : Plugin}
    (hx : x ∈ setOrd l) : x ∈ l := by
  have h := hso l
  unfold SetOrdValidAt at h
  exact List.mem_dedup.mp (h.mem_iff.mp hx)

/-- The inspection step on a module with exactly one chosen class,
when its protocol is fresh for the registry: the plugin is registered
and the only warning emitted is the attempting-to-register one, which
fires although no other plugin ever claimed this protocol. -/
theorem inspectAndRegister_single_fresh
    (setOrd : List Plugin → List Plugin) (fn : String) (mod : PyModule)
    (st : ScanState) (pl : Plugin) (p : String)
    (hcls : setOrd (classesOf mod) = [pl]) (hp : pl.protocol = some p)
    (hfresh : dget st.registry (some p) = none) :
    inspectAndRegister setOrd fn mod st =
      { st with
          registry := dset st.registry (some p) pl
          added := dset st.added p pl
          logs := st.logs ++ [LogEvent.warnAttemptRegister p]
          registrations := st.registrations ++ [(p, pl)] } := by
  simp [inspectAndRegister, hcls, hp, hfresh, add_plugin]

/-- The inspection step on a module with exactly one chosen class,
when a different plugin currently holds its protocol: the plugin is
registered over the old one, with both the attempting-to-register
warning and the Replacing warning. -/
theorem inspectAndRegister_single_conflict
    (setOrd : List Plugin → List Plugin) (fn : String) (mod : PyModule)
    (st : ScanState) (pl old : Plugin) (p : String)
    (hcls : setOrd (classesOf mod) = [pl]) (hp : pl.protocol = some p)
    (hold : dget st.registry (some p) = some old) (hne : old ≠ pl) :
    inspectAndRegister setOrd fn mod st =
      { st with
          registry := dset st.registry (some p) pl
          added := dset st.added p pl
          logs := st.logs ++ [LogEvent.warnAttemptRegister p,
            LogEvent.warnReplacing pl old (some p)]
          registrations := st.registrations ++ [(p, pl)] } := by
  have hne2 : ¬ (some old = some pl) := by
    simpa using hne
  simp [inspectAndRegister, hcls, hp, hold, hne2, add_plugin]

/-- The inspection step on a module with exactly one chosen class,
when that very plugin object already holds its protocol: the
attempting-to-register warning is skipped, but add_plugin still logs
the Replacing warning, and the dictionary is left unchanged. -/
theorem inspectAndRegister_single_self
    (setOrd : List Plugin → List Plugin) (fn : String) (mod : PyModule)
    (st : ScanState) (pl : Plugin) (p : String)
    (hcls : setOrd (classesOf mod) = [pl]) (hp : pl.protocol = some p)
    (hold : dget st.registry (some p) = some pl) :
    inspectAndRegister setOrd fn mod st =
      { st with
          registry := st.registry
          added := dset st.added p pl
          logs := st.logs ++ [LogEvent.warnReplacing pl pl (some p)]
          registrations := st.registrations ++ [(p, pl)] } := by
  simp [inspectAndRegister, hcls, hp, hold, add_plugin,
    dset_self st.registry (some p) pl hold]

/-- Reading the last registration for a protocol out of a trace that
just grew by one entry. -/
theorem lastReg_append (tr : List (String × Plugin)) (p0 p : String)
    (pl : Plugin) :
    lastReg (tr ++ [(p0, pl)]) p =
      if p0 = p then some pl else lastReg tr p := by
  simp [lastReg, List.foldl_append]

/-- Folding over a single element is just one step. -/
theorem foldE_singleton {α σ ε : Type} (f : σ → α → Except ε σ) (s : σ)
    (a : α) : foldE f s [a] = f s a := by
  cases h : f s a <;> simp [foldE, h]

/-- A successful first step lets the fold continue on the tail. -/
theorem foldE_cons_ok {α σ ε : Type} {f : σ → α → Except ε σ} {s s1 : σ}
    {a : α} (l : List α) (h : f s a = .ok s1) :
    foldE f s (a :: l) = foldE f s1 l := by
  simp [foldE, h]

/-- One file step on a candidate file whose load succeeds: the try
block binds module to the fresh module and inspection runs on it. -/
theorem processFile_ok_load (setOrd : List Plugin → List Plugin)
    (root : String) (f : PyFile) (st : ScanState) (mod : PyModule)
    (hend : pyEndsWith f.name DATA_PLUGIN_TOKEN = true)
    (hres : f.result = LoadResult.ok mod) :
    processFile setOrd root f st =
      Except.ok (inspectAndRegister setOrd f.name mod
        { st with
            logs := st.logs ++ [LogEvent.infoTrying f.name]
            sysPath := st.sysPath ++ [root]
            module := some mod }) := by
  have hA := afterTry_eq_ok root f st mod hres
  simp [processFile, hend, hA]

/-- One file step on a candidate file whose load raises, while an
earlier file of the same call loaded fine: the exception is caught and
logged, and control falls through to the inspection of the stale
module still held by the local variable. -/
theorem processFile_err_stale (setOrd : List Plugin → List Plugin)
    (root : String) (f : PyFile) (st : ScanState) (mod : PyModule)
    (hend : pyEndsWith f.name DATA_PLUGIN_TOKEN = true)
    (hres : f.result = LoadResult.err) (hmod : st.module = some mod) :
    processFile setOrd root f st =
      Except.ok (inspectAndRegister setOrd f.name mod
        { st with
            logs := st.logs ++
              [LogEvent.infoTrying f.name, LogEvent.excImportFail f.name]
            sysPath := st.sysPath ++ [root] }) := by
  have hA := afterTry_eq_err root f st hres
  simp [processFile, hend, hA, hmod]

/-- One file step on a candidate file whose load raises before any
file of the call loaded successfully: the inspection reads the still
unassigned local variable module and the scan aborts. -/
theorem processFile_err_unbound (setOrd : List Plugin → List Plugin)
    (root : String) (f : PyFile) (st : ScanState)
    (hend : pyEndsWith f.name DATA_PLUGIN_TOKEN = true)
    (hres : f.result = LoadResult.err) (hmod : st.module = none) :
    processFile setOrd root f st = Except.error ScanErr.unboundLocalModule := by
  have hA := afterTry_eq_err root f st hres
  simp [processFile, hend, hA, hmod]

/-- C1: the claim says a candidate file whose load raises is caught,
logged, skipped, and the scan continues, returning the remaining valid
handlers.  The code catches and logs, but does not skip: control falls
through to the member inspection, and when the broken file is the
first candidate of the call the local variable module is still
unassigned there, so the scan aborts with an unhandled
UnboundLocalError and the valid handler in the next file is never
returned.  This run evaluates the code on one location whose first
candidate file is broken and whose second defines a valid handler. -/
theorem c1_scan_aborts_on_first_broken_file :
    load_plugins_from_path setOrdD []
      [DirTree.mk "plugins" [fileBroken, fileGood] []] DATA_PLUGIN_TOKEN =
      Except.error ScanErr.unboundLocalModule := by decide

/-- C2 (counterexample): the claim says no file anywhere under a
double-underscore directory, including in its subdirectories, is ever
a load candidate.  In this run the location holds __internal/sub/
x_plugin.py; the scan descends through __internal into sub, loads the
file (its root, sub, is appended to sys.path) and registers its
handler under protocol x. -/
theorem c2_file_under_dunder_dir_is_loaded :
    (load_plugins_from_path setOrdD [] [dunderTree] DATA_PLUGIN_TOKEN).map
      (fun st => (dget st.added "x", st.sysPath)) =
      Except.ok (some pluginA, ["sub"]) := by decide

/-- C2 (amended): a directory whose base name starts with the
double-underscore prefix is skipped as a walk root, before any of the
files directly inside it is examined, so those direct files are never
load candidates; but the walk still descends into its subdirectories,
and a file in a nested subdirectory whose own base name does not start
with the prefix is a load candidate (second conjunct: the concrete run
of the counterexample registers such a file). -/
theorem c2_dunder_dir_direct_files_skipped
    (setOrd : List Plugin → List Plugin) (n : String)
    (fs : List PyFile) (st : ScanState)
    (hd : pyStartsWith n "__" = true) :
    processRoot setOrd (n, fs) st = Except.ok st ∧
    (load_plugins_from_path setOrdD [] [dunderTree] DATA_PLUGIN_TOKEN).map
      (fun s => dget s.added "x") = Except.ok (some pluginA) := by
  constructor
  · simp [processRoot, hd]
  · decide

/-- Witness for C2 (amended), at the double-underscore directory of
the counterexample tree and the initial scan state. -/
theorem c2_dunder_dir_direct_files_skipped_witness :
    processRoot setOrdD ("__internal", [⟨"x_plugin.py", LoadResult.ok modA⟩])
        (initState []) = Except.ok (initState []) ∧
    (load_plugins_from_path setOrdD [] [dunderTree] DATA_PLUGIN_TOKEN).map
      (fun s => dget s.added "x") = Except.ok (some pluginA) :=
  c2_dunder_dir_direct_files_skipped setOrdD "__internal"
    [⟨"x_plugin.py", LoadResult.ok modA⟩] (initState []) (by decide)

/-- C3: the claim (and the warning text of the source itself) says the
class whose name sorts first lexicographically is chosen when one file
defines several qualifying classes.  The choice is really classes[0]
of list(set(classes)), whose order is the unspecified set iteration
order: under one valid set ordering (setOrdRev, shown valid in the
first conjunct) the scan of a file defining APlugin and BPlugin
registers BPlugin and its multiple-classes warning names BPlugin,
while under another (setOrdD) the same file yields APlugin. -/
theorem c3_chosen_class_depends_on_set_order :
    SetOrdValidAt setOrdRev (classesOf twoClassMod) ∧
    (load_plugins_from_path setOrdRev [] [twoClassTree]
        DATA_PLUGIN_TOKEN).map
      (fun st => (st.added, st.logs.filter LogEvent.isWarning)) =
      Except.ok ([("b", betaPlugin)],
        [LogEvent.warnMultipleClasses "two_plugin.py" "BPlugin",
         LogEvent.warnAttemptRegister "b"]) ∧
    (load_plugins_from_path setOrdD [] [twoClassTree]
        DATA_PLUGIN_TOKEN).map
      (fun st => (st.added, st.logs.filter LogEvent.isWarning)) =
      Except.ok ([("a", alphaPlugin)],
        [LogEvent.warnMultipleClasses "two_plugin.py" "APlugin",
         LogEvent.warnAttemptRegister "a"]) := by
  refine ⟨?_, by decide, by decide⟩
  unfold SetOrdValidAt
  decide

/-- C4 (counterexample): the claim says registering the identical
handler definition a second time is a no-op with no log output.  On a
registry already mapping protocol x to pluginA, add_plugin pluginA
leaves the mapping unchanged but does emit the Replacing warning,
because the warning fires on key presence, not on object identity. -/
theorem c4_identical_reregistration_not_silent :
    (add_plugin pluginA [(some "x", pluginA)]).1 = [(some "x", pluginA)] ∧
    (add_plugin pluginA [(some "x", pluginA)]).2 =
      [LogEvent.warnReplacing pluginA pluginA (some "x")] := by decide

/-- C4 (amended): registering the identical handler definition a
second time leaves the registry mapping unchanged, but is not silent:
add_plugin logs its Replacing warning whenever the protocol key is
already present, even when the present entry is the identical
definition. -/
theorem c4_reregistration_keeps_mapping_but_warns
    (pl : Plugin) (m : Registry) (h : dget m pl.protocol = some pl) :
    add_plugin pl m = (m, [LogEvent.warnReplacing pl pl pl.protocol]) := by
  simp [add_plugin, h, dset_self m pl.protocol pl h]

/-- Witness for C4 (amended), at pluginA over a registry already
holding it. -/
theorem c4_reregistration_witness :
    add_plugin pluginA [(some "x", pluginA)] =
      ([(some "x", pluginA)],
       [LogEvent.warnReplacing pluginA pluginA pluginA.protocol]) :=
  c4_reregistration_keeps_mapping_but_warns pluginA
    [(some "x", pluginA)] (by decide)

/-- Walking a location without subdirectories yields one triple. -/
theorem walk_single (n : String) (fs : List PyFile) :
    DirTree.walk (DirTree.mk n fs []) = [(n, fs)] := by
  simp [DirTree.walk, walkForest]

/-- A scan over one flat location is one directory step from the
initial state. -/
theorem load_single_loc (setOrd : List Plugin → List Plugin)
    (m0 : Registry) (n : String) (fs : List PyFile) (token : String) :
    load_plugins_from_path setOrd m0 [DirTree.mk n fs []] token =
      processRoot setOrd (n, fs) (initState m0) := by
  unfold load_plugins_from_path
  rw [foldE_singleton, walk_single, foldE_singleton]

/-- A directory step on a root not starting with the reserved prefix:
log Looking, then fold over the files. -/
theorem processRoot_files (setOrd : List Plugin → List Plugin)
    (n : String) (fs : List PyFile) (st : ScanState)
    (hd : pyStartsWith n "__" = false) :
    processRoot setOrd (n, fs) st =
      foldE (fun s f => processFile setOrd n f s)
        { st with logs := st.logs ++ [LogEvent.infoLooking n] } fs := by
  simp [processRoot, hd]

/-- C5 (amended): when two files, scanned in traversal order, define
distinct handlers for the same protocol x (each file one class), the
scan starting from an empty registry ends with exactly one registry
entry for x, the later definition B, and the collision is not fatal;
but three warnings are logged about it, not exactly one: the
attempting-to-register warning fires at both registrations, the first
included, because it fires whenever the current registry entry
differs from the incoming plugin, and the Replacing warning fires at
the second registration. -/
theorem c5_last_write_wins_with_three_warnings
    (setOrd : List Plugin → List Plugin) (hso : SetOrdValid setOrd)
    (A B : Plugin) (x : String)
    (hA : A.protocol = some x) (hB : B.protocol = some x) (hAB : A ≠ B) :
    load_plugins_from_path setOrd []
      [DirTree.mk "plugins"
        [⟨"a_plugin.py", LoadResult.ok ⟨[("APlugin", Member.pluginClass A)]⟩⟩,
         ⟨"b_plugin.py", LoadResult.ok ⟨[("BPlugin", Member.pluginClass B)]⟩⟩]
        []]
      DATA_PLUGIN_TOKEN =
    Except.ok
      { registry := [(some x, B)]
        added := [(x, B)]
        module := some ⟨[("BPlugin", Member.pluginClass B)]⟩
        sysPath := ["plugins", "plugins"]
        logs := [LogEvent.infoLooking "plugins",
          LogEvent.infoTrying "a_plugin.py",
          LogEvent.warnAttemptRegister x,
          LogEvent.infoTrying "b_plugin.py",
          LogEvent.warnAttemptRegister x,
          LogEvent.warnReplacing B A (some x)]
        registrations := [(x, A), (x, B)] } := by
  have hsA : setOrd (classesOf ⟨[("APlugin", Member.pluginClass A)]⟩) = [A] := by
    have h0 : classesOf ⟨[("APlugin", Member.pluginClass A)]⟩ = [A] := rfl
    rw [h0]
    exact setOrd_singleton hso A
  have hsB : setOrd (classesOf ⟨[("BPlugin", Member.pluginClass B)]⟩) = [B] := by
    have h0 : classesOf ⟨[("BPlugin", Member.pluginClass B)]⟩ = [B] := rfl
    rw [h0]
    exact setOrd_singleton hso B
  have h1 : processFile setOrd "plugins"
      ⟨"a_plugin.py", LoadResult.ok ⟨[("APlugin", Member.pluginClass A)]⟩⟩
      { registry := [], added := [], module := none, sysPath := [],
        logs := [LogEvent.infoLooking "plugins"], registrations := [] } =
      Except.ok
        { registry := [(some x, A)]
          added := [(x, A)]
          module := some ⟨[("APlugin", Member.pluginClass A)]⟩
          sysPath := ["plugins"]
          logs := [LogEvent.infoLooking "plugins",
            LogEvent.infoTrying "a_plugin.py",
            LogEvent.warnAttemptRegister x]
          registrations := [(x, A)] } := by
    simp [processFile, afterTry, inspectAndRegister, add_plugin, hsA, hA,
      dget, dset,
      (by decide : pyEndsWith "a_plugin.py" DATA_PLUGIN_TOKEN = true)]
  have h2 : processFile setOrd "plugins"
      ⟨"b_plugin.py", LoadResult.ok ⟨[("BPlugin", Member.pluginClass B)]⟩⟩
      { registry := [(some x, A)], added := [(x, A)],
        module := some ⟨[("APlugin", Member.pluginClass A)]⟩,
        sysPath := ["plugins"],
        logs := [LogEvent.infoLooking "plugins",
          LogEvent.infoTrying "a_plugin.py",
          LogEvent.warnAttemptRegister x],
        registrations := [(x, A)] } =
      Except.ok
        { registry := [(some x, B)]
          added := [(x, B)]
          module := some ⟨[("BPlugin", Member.pluginClass B)]⟩
          sysPath := ["plugins", "plugins"]
          logs := [LogEvent.infoLooking "plugins",
            LogEvent.infoTrying "a_plugin.py",
            LogEvent.warnAttemptRegister x,
            LogEvent.infoTrying "b_plugin.py",
            LogEvent.warnAttemptRegister x,
            LogEvent.warnReplacing B A (some x)]
          registrations := [(x, A), (x, B)] } := by
    have hBA : ¬ (A = B) := hAB
    simp [processFile, afterTry, inspectAndRegister, add_plugin, hsB, hB,
      dget, dset, hBA,
      (by decide : pyEndsWith "b_plugin.py" DATA_PLUGIN_TOKEN = true)]
  rw [load_single_loc, processRoot_files setOrd _ _ _ (by decide)]
  rw [show ({ initState [] with logs :=
      (initState []).logs ++ [LogEvent.infoLooking "plugins"] } : ScanState) =
    { registry := [], added := [], module := none, sysPath := [],
      logs := [LogEvent.infoLooking "plugins"], registrations := [] }
    from by simp [initState]]
  rw [foldE_cons_ok _ h1, foldE_singleton, h2]

/-- C5 (counterexample): the claim says exactly one conflict warning
is logged when two files in traversal order register the same
protocol.  On the concrete two-file run for protocol x (pluginA then
pluginB), the registry does end up holding only the later definition,
but three warnings are logged, not one: the attempting-to-register
warning at each of the two registrations and the Replacing warning at
the second. -/
theorem c5_three_warnings_counterexample :
    (load_plugins_from_path setOrdD []
      [DirTree.mk "plugins"
        [⟨"a_plugin.py",
          LoadResult.ok ⟨[("APlugin", Member.pluginClass pluginA)]⟩⟩,
         ⟨"b_plugin.py",
          LoadResult.ok ⟨[("BPlugin", Member.pluginClass pluginB)]⟩⟩]
        []]
      DATA_PLUGIN_TOKEN).map
      (fun s => (dget s.registry (some "x"),
        s.logs.filter LogEvent.isWarning)) =
    Except.ok (some pluginB,
      [LogEvent.warnAttemptRegister "x",
       LogEvent.warnAttemptRegister "x",
       LogEvent.warnReplacing pluginB pluginA (some "x")]) := by decide

/-- Witness for C5 (amended), at the dedup set ordering and the
concrete plugins pluginA and pluginB for protocol x. -/
theorem c5_last_write_wins_witness :
    load_plugins_from_path setOrdD []
      [DirTree.mk "plugins"
        [⟨"a_plugin.py",
          LoadResult.ok ⟨[("APlugin", Member.pluginClass pluginA)]⟩⟩,
         ⟨"b_plugin.py",
          LoadResult.ok ⟨[("BPlugin", Member.pluginClass pluginB)]⟩⟩]
        []]
      DATA_PLUGIN_TOKEN =
    Except.ok
      { registry := [(some "x", pluginB)]
        added := [("x", pluginB)]
        module := some ⟨[("BPlugin", Member.pluginClass pluginB)]⟩
        sysPath := ["plugins", "plugins"]
        logs := [LogEvent.infoLooking "plugins",
          LogEvent.infoTrying "a_plugin.py",
          LogEvent.warnAttemptRegister "x",
          LogEvent.infoTrying "b_plugin.py",
          LogEvent.warnAttemptRegister "x",
          LogEvent.warnReplacing pluginB pluginA (some "x")]
        registrations := [("x", pluginA), ("x", pluginB)] } :=
  c5_last_write_wins_with_three_warnings setOrdD setOrdD_valid
    pluginA pluginB "x" rfl rfl (by decide)

/-- C6: a handler definition with a null protocol is never registered
by the scan.  First conjunct: every registration performed by a
successful run pairs a plugin with its own non-null protocol string.
Second conjunct: the registry entry under the None key is exactly what
it was before the call.  Third conjunct: a loaded file all of whose
qualifying classes have a null protocol leaves both the returned
added_plugins dictionary and the registry untouched. -/
theorem c6_null_protocol_never_registered
    (setOrd : List Plugin → List Plugin) (hso : SetOrdValid setOrd)
    (m0 : Registry) (locations : List DirTree) (token : String)
    (st : ScanState)
    (h : load_plugins_from_path setOrd m0 locations token = Except.ok st) :
    (∀ e ∈ st.registrations, e.2.protocol = some e.1) ∧
    dget st.registry none = dget m0 none ∧
    (∀ (root : String) (f : PyFile) (mod : PyModule) (st0 st1 : ScanState),
      f.result = LoadResult.ok mod →
      (∀ pl ∈ classesOf mod, pl.protocol = none) →
      processFile setOrd root f st0 = Except.ok st1 →
      st1.added = st0.added ∧ st1.registry = st0.registry) := by
  refine ⟨?_, ?_, ?_⟩
  · have hP : StableP (fun s => ∀ e ∈ s.registrations,
        e.2.protocol = some e.1) := by
      intro s s1 _ _ hr hp
      rw [hr]
      exact hp
    have hreg : RegStep (fun s => ∀ e ∈ s.registrations,
        e.2.protocol = some e.1) := by
      intro s p pl hpl hps e he
      simp only [List.mem_append, List.mem_singleton] at he
      rcases he with he | he
      · exact hps e he
      · rw [he]
        exact hpl
    exact scan_pres hP hreg setOrd m0 locations token st h
      (by intro e he; simp [initState] at he)
  · have hP : StableP (fun s => dget s.registry none = dget m0 none) := by
      intro s s1 hr _ _ hp
      rw [hr]
      exact hp
    have hreg : RegStep (fun s => dget s.registry none = dget m0 none) := by
      intro s p pl _ hps
      show dget (dset s.registry (some p) pl) none = dget m0 none
      rw [dget_dset]
      simp only [reduceCtorEq, if_false]
      exact hps
    exact scan_pres hP hreg setOrd m0 locations token st h
      (by simp [initState])
  · intro root f mod st0 st1 hres hnull hpf
    rcases processFile_cases setOrd root f st0 st1 hpf with
      ⟨h1, h2, _⟩ | ⟨mod2, pl, p, _, hmm, hh, hp, _, _, _⟩
    · exact ⟨h2, h1⟩
    · exfalso
      have hm2 : mod2 = mod := hmm mod hres
      have hmem : pl ∈ setOrd (classesOf mod2) := by
        cases hcl : setOrd (classesOf mod2) with
        | nil => rw [hcl] at hh; simp at hh
        | cons a l =>
          rw [hcl] at hh
          simp only [List.head?_cons, Option.some.injEq] at hh
          rw [← hh]
          exact List.mem_cons_self a l
      have hnone := hnull pl (setOrd_mem hso (hm2 ▸ hmem))
      rw [hnone] at hp
      exact Option.noConfusion hp

/-- Witness for C6, applying the theorem to a successful run over a
location holding only a file that defines a single null-protocol
class: the None registry entry is unchanged, and the file step on that
file leaves the added dictionary and the registry of the initial state
untouched. -/
theorem c6_null_protocol_never_registered_witness :
    dget (ScanState.registry
      { registry := [], added := [], module := some nullMod,
        sysPath := ["plugins"],
        logs := [LogEvent.infoLooking "plugins",
          LogEvent.infoTrying "null_plugin.py"],
        registrations := [] }) none = dget ([] : Registry) none ∧
    ({ registry := [], added := [], module := some nullMod,
       sysPath := ["plugins"],
       logs := [LogEvent.infoTrying "null_plugin.py"],
       registrations := [] } : ScanState).added = (initState []).added ∧
    ({ registry := [], added := [], module := some nullMod,
       sysPath := ["plugins"],
       logs := [LogEvent.infoTrying "null_plugin.py"],
       registrations := [] } : ScanState).registry =
      (initState []).registry :=
  ⟨(c6_null_protocol_never_registered setOrdD setOrdD_valid [] [nullTree]
      DATA_PLUGIN_TOKEN
      { registry := [], added := [], module := some nullMod,
        sysPath := ["plugins"],
        logs := [LogEvent.infoLooking "plugins",
          LogEvent.infoTrying "null_plugin.py"],
        registrations := [] } (by decide)).2.1,
   (c6_null_protocol_never_registered setOrdD setOrdD_valid [] [nullTree]
      DATA_PLUGIN_TOKEN
      { registry := [], added := [], module := some nullMod,
        sysPath := ["plugins"],
        logs := [LogEvent.infoLooking "plugins",
          LogEvent.infoTrying "null_plugin.py"],
        registrations := [] } (by decide)).2.2 "plugins" nullFile nullMod
      (initState [])
      { registry := [], added := [], module := some nullMod,
        sysPath := ["plugins"],
        logs := [LogEvent.infoTrying "null_plugin.py"],
        registrations := [] } rfl (by decide) (by decide)⟩

/-- C7: the startup search locations are the built-in plugin directory
followed by the paths obtained by splitting the environment setting on
the platform path separator, in the order supplied; when the setting
is absent the list is the built-in directory alone, and the built-in
directory is always first. -/
theorem c7_startup_locations (pathsep : Char) (plugin_dir : String) :
    startupLocations none pathsep plugin_dir = [plugin_dir] ∧
    (∀ s : String, startupLocations (some s) pathsep plugin_dir =
      plugin_dir :: pySplit pathsep s) ∧
    (∀ env : Option String,
      (startupLocations env pathsep plugin_dir).head? = some plugin_dir) ∧
    startupLocations (some "p1:p2") ':' "builtin" = ["builtin", "p1", "p2"] := by
  refine ⟨rfl, fun s => rfl, fun env => ?_, by decide⟩
  cases env <;> rfl

/-- C8: the added_plugins dictionary a successful call returns maps
exactly the protocols this call registered, each to the plugin
registered last for it during the call (first conjunct, against the
registration trace), and it is a sub-mapping of the global registry as
left at return (second conjunct). -/
theorem c8_added_is_last_registrations_submap
    (setOrd : List Plugin → List Plugin) (m0 : Registry)
    (locations : List DirTree) (token : String) (st : ScanState)
    (h : load_plugins_from_path setOrd m0 locations token = Except.ok st) :
    (∀ p : String, dget st.added p = lastReg st.registrations p) ∧
    (∀ (p : String) (pl : Plugin), dget st.added p = some pl →
      dget st.registry (some p) = some pl) := by
  have hP : StableP (fun s =>
      (∀ p, dget s.added p = lastReg s.registrations p) ∧
      (∀ p pl, dget s.added p = some pl →
        dget s.registry (some p) = some pl)) := by
    intro s s1 hr ha hrr hp
    rw [ha, hrr, hr]
    exact hp
  have hreg : RegStep (fun s =>
      (∀ p, dget s.added p = lastReg s.registrations p) ∧
      (∀ p pl, dget s.added p = some pl →
        dget s.registry (some p) = some pl)) := by
    intro s p pl _ hp
    constructor
    · intro q
      show dget (dset s.added p pl) q = lastReg (s.registrations ++ [(p, pl)]) q
      rw [dget_dset, lastReg_append]
      by_cases hq : p = q
      · simp [hq]
      · simp [hq, hp.1 q]
    · intro q ql hq
      show dget (dset s.registry (some p) pl) (some q) = some ql
      replace hq : dget (dset s.added p pl) q = some ql := hq
      rw [dget_dset] at hq
      rw [dget_dset]
      by_cases hpq : p = q
      · subst hpq
        simp only [if_pos rfl] at hq ⊢
        exact hq
      · have hpq2 : ¬ (some p = some q) := by simpa using hpq
        rw [if_neg hpq] at hq
        rw [if_neg hpq2]
        exact hp.2 q ql hq
  have hinit : (∀ p, dget (initState m0).added p =
      lastReg (initState m0).registrations p) ∧
      (∀ p pl, dget (initState m0).added p = some pl →
        dget (initState m0).registry (some p) = some pl) := by
    constructor
    · intro p
      simp [initState, dget, lastReg]
    · intro p pl hq
      simp [initState, dget] at hq
  exact scan_pres hP hreg setOrd m0 locations token st h hinit

/-- Witness for C8, applying the theorem to the concrete two-file
conflict run: the returned entry for protocol x is the last
registration of the run, and it agrees with the final registry. -/
theorem c8_added_is_last_registrations_submap_witness :
    dget [("x", pluginB)] "x" =
      lastReg [("x", pluginA), ("x", pluginB)] "x" ∧
    dget [(some "x", pluginB)] (some "x") = some pluginB :=
  ⟨(c8_added_is_last_registrations_submap setOrdD []
      [DirTree.mk "plugins"
        [⟨"a_plugin.py",
          LoadResult.ok ⟨[("APlugin", Member.pluginClass pluginA)]⟩⟩,
         ⟨"b_plugin.py",
          LoadResult.ok ⟨[("BPlugin", Member.pluginClass pluginB)]⟩⟩]
        []]
      DATA_PLUGIN_TOKEN
      { registry := [(some "x", pluginB)], added := [("x", pluginB)],
        module := some ⟨[("BPlugin", Member.pluginClass pluginB)]⟩,
        sysPath := ["plugins", "plugins"],
        logs := [LogEvent.infoLooking "plugins",
          LogEvent.infoTrying "a_plugin.py",
          LogEvent.warnAttemptRegister "x",
          LogEvent.infoTrying "b_plugin.py",
          LogEvent.warnAttemptRegister "x",
          LogEvent.warnReplacing pluginB pluginA (some "x")],
        registrations := [("x", pluginA), ("x", pluginB)] }
      (by decide)).1 "x",
   (c8_added_is_last_registrations_submap setOrdD []
      [DirTree.mk "plugins"
        [⟨"a_plugin.py",
          LoadResult.ok ⟨[("APlugin", Member.pluginClass pluginA)]⟩⟩,
         ⟨"b_plugin.py",
          LoadResult.ok ⟨[("BPlugin", Member.pluginClass pluginB)]⟩⟩]
        []]
      DATA_PLUGIN_TOKEN
      { registry := [(some "x", pluginB)], added := [("x", pluginB)],
        module := some ⟨[("BPlugin", Member.pluginClass pluginB)]⟩,
        sysPath := ["plugins", "plugins"],
        logs := [LogEvent.infoLooking "plugins",
          LogEvent.infoTrying "a_plugin.py",
          LogEvent.warnAttemptRegister "x",
          LogEvent.infoTrying "b_plugin.py",
          LogEvent.warnAttemptRegister "x",
          LogEvent.warnReplacing pluginB pluginA (some "x")],
        registrations := [("x", pluginA), ("x", pluginB)] }
      (by decide)).2 "x" pluginB (by decide)⟩

/-- C9: after a candidate file fails to load, execution falls through
to the member inspection with the local variable module still holding
the previously loaded module of the same call, so that module is
inspected and its handler can be registered again in place of the
broken file (first conjunct); if no file of the call has loaded yet,
the inspection reads an unbound variable and the scan aborts (second
conjunct).  Third conjunct, concrete: scanning a good file and then a
broken one registers the good plugin twice, the second time during
the broken file, with the Replacing warning of that re-registration. -/
theorem c9_stale_module_fallthrough
    (setOrd : List Plugin → List Plugin) (root : String) (f : PyFile)
    (st : ScanState) (m : PyModule)
    (hend : pyEndsWith f.name DATA_PLUGIN_TOKEN = true)
    (hres : f.result = LoadResult.err) :
    (st.module = some m → processFile setOrd root f st =
      Except.ok (inspectAndRegister setOrd f.name m
        { st with
            logs := st.logs ++
              [LogEvent.infoTrying f.name, LogEvent.excImportFail f.name]
            sysPath := st.sysPath ++ [root] })) ∧
    (st.module = none →
      processFile setOrd root f st = Except.error ScanErr.unboundLocalModule) ∧
    (load_plugins_from_path setOrdD []
        [DirTree.mk "plugins" [fileGood, fileBroken] []]
        DATA_PLUGIN_TOKEN).map
      (fun s => (s.registrations, s.logs.filter LogEvent.isWarning)) =
      Except.ok ([("x", pluginA), ("x", pluginA)],
        [LogEvent.warnAttemptRegister "x",
         LogEvent.warnReplacing pluginA pluginA (some "x")]) := by
  refine ⟨fun hmod => processFile_err_stale setOrd root f st m hend hres hmod,
    fun hmod => processFile_err_unbound setOrd root f st hend hres hmod,
    by decide⟩

/-- Witness for C9, at the broken fixture file and the initial state
of a fresh call, whose module variable is still unassigned. -/
theorem c9_stale_module_fallthrough_witness :
    processFile setOrdD "plugins" fileBroken (initState []) =
      Except.error ScanErr.unboundLocalModule :=
  (c9_stale_module_fallthrough setOrdD "plugins" fileBroken (initState [])
    modA (by decide) rfl).2.1 rfl

/-- C10: the attempting-to-register warning fires whenever the current
registry entry for the chosen plugin protocol differs from the plugin
being registered, which includes the case of a protocol nobody has
registered yet, so even the very first registration of a protocol
logs this conflict warning. -/
theorem c10_conflict_warning_on_any_mismatch
    (setOrd : List Plugin → List Plugin) (fn : String) (mod : PyModule)
    (st : ScanState) (pl : Plugin) (rest : List Plugin) (p : String)
    (hcls : setOrd (classesOf mod) = pl :: rest)
    (hp : pl.protocol = some p)
    (hne : dget st.registry (some p) ≠ some pl) :
    LogEvent.warnAttemptRegister p ∈
      (inspectAndRegister setOrd fn mod st).logs := by
  by_cases hlen : rest.length > 0 <;>
    simp [inspectAndRegister, hcls, hp, hlen, hne, add_plugin]

/-- Witness for C10, at a fresh registration: the registry is empty,
nobody ever claimed protocol x, and the warning is logged anyway. -/
theorem c10_conflict_warning_on_any_mismatch_witness :
    LogEvent.warnAttemptRegister "x" ∈
      (inspectAndRegister setOrdD "good_plugin.py" modA (initState [])).logs :=
  c10_conflict_warning_on_any_mismatch setOrdD "good_plugin.py" modA
    (initState []) pluginA [] "x" (by decide) rfl (by decide)

end PydmDataPlugins
